import Mathlib

/-!
Verification development for the orbit content engine (orbit.py / dashboard.py).

Python strings are modelled as Lean `String`s (lists of unicode code points),
so Python `len` is `String.length` / `List.length` on the character list.
Python string primitives used by the source (`in`, `replace`, `split`,
slicing, `strip`) are embedded below as executable functions over character
lists, following CPython semantics (leftmost, non-overlapping matches).
-/

/-- Python `needle in hay` (contiguous substring test) over character lists. -/
def pyIn (needle : List Char) : List Char → Bool
  | [] => needle.isEmpty
  | c :: rest => needle.isPrefixOf (c :: rest) || pyIn needle rest

/-- Python `needle in hay` on strings. -/
def substr (needle hay : String) : Bool := pyIn needle.data hay.data

/-- Fuelled worker for Python `str.replace` (replace all occurrences,
leftmost first, non-overlapping).  With `fuel ≥ s.length` the fuel never
runs out, since every step consumes at least one character. -/
def pyReplaceAux (pat rep : List Char) : Nat → List Char → List Char
  | _, [] => []
  | 0, s => s
  | fuel + 1, c :: rest =>
    if pat.isPrefixOf (c :: rest) && !pat.isEmpty then
      rep ++ pyReplaceAux pat rep fuel ((c :: rest).drop pat.length)
    else
      c :: pyReplaceAux pat rep fuel rest

/-- Python `s.replace(pat, rep)`. -/
def pyReplaceS (s pat rep : String) : String :=
  String.mk (pyReplaceAux pat.data rep.data s.data.length s.data)

/-- Fuelled worker for Python `s.split(sep)` with a non-empty separator. -/
def pySplitAux (sep : List Char) : Nat → List Char → List (List Char)
  | _, [] => [[]]
  | 0, s => [s]
  | fuel + 1, c :: rest =>
    if sep.isPrefixOf (c :: rest) && !sep.isEmpty then
      [] :: pySplitAux sep fuel ((c :: rest).drop sep.length)
    else
      match pySplitAux sep fuel rest with
      | l :: ls => (c :: l) :: ls
      | [] => [[c]]

/-- Python `s.split(sep)` on strings (non-empty separator). -/
def pySplitS (s sep : String) : List String :=
  (pySplitAux sep.data s.data.length s.data).map String.mk

/-- Python slicing `s[:n]` (first `n` code points). -/
def pyTake (s : String) (n : Nat) : String := String.mk (s.data.take n)

/-- Python `s.strip()` (trim whitespace at both ends). -/
def pyStrip (s : String) : String :=
  String.mk (((s.data.dropWhile Char.isWhitespace).reverse.dropWhile
      Char.isWhitespace).reverse)

/-!
## Outcome selection (orbit.py, `send_chaos`, lines 198-296)

The roll is dispatched by the chain
`if roll <= 50: ... elif 51 <= roll <= 85: ... elif 86 <= roll <= 98: ... else: ...`.
-/

inductive Outcome where
  | Silence
  | Fact
  | QuizBatch
  | MysteryCase
deriving DecidableEq

/-- The outcome dispatch of `send_chaos` on a roll value. -/
def roll_outcome (roll : Nat) : Outcome :=
  if roll ≤ 50 then Outcome.Silence
  else if 51 ≤ roll ∧ roll ≤ 85 then Outcome.Fact
  else if 86 ≤ roll ∧ roll ≤ 98 then Outcome.QuizBatch
  else Outcome.MysteryCase

/-- Claim C2: for every draw value d in [1,100], the outcome selection of
send_chaos is a total, deterministic, disjoint partition: 1-50 yields
Silence, 51-85 yields Fact, 86-98 yields QuizBatch and 99-100 yields
MysteryCase; no value yields an undefined outcome and no value falls in
two ranges. -/
theorem c2_outcome_partition :
    ∀ d : Nat, d ≤ 100 → 1 ≤ d →
      (roll_outcome d = Outcome.Silence ↔ d ≤ 50) ∧
      (roll_outcome d = Outcome.Fact ↔ 51 ≤ d ∧ d ≤ 85) ∧
      (roll_outcome d = Outcome.QuizBatch ↔ 86 ≤ d ∧ d ≤ 98) ∧
      (roll_outcome d = Outcome.MysteryCase ↔ 99 ≤ d ∧ d ≤ 100) := by
  decide

/-- Witness for C2: the debug draw 90 lands in the QuizBatch range. -/
theorem c2_outcome_partition_witness : roll_outcome 90 = Outcome.QuizBatch :=
  (c2_outcome_partition 90 (by decide) (by decide)).2.2.1.mpr (by decide)

/-!
## Chunked delivery (orbit.py, `send_safe_message`, lines 136-166)

The input text is modelled as its list of characters.  The function returns
the ordered sequence of chunks passed to `send_chunk`.
-/

/-- `MAX_LENGTH = 4000` from `send_safe_message`. -/
def MAX_LENGTH : Nat := 4000

/-- Python `text.split('\n')` over character lists (structural version of
`pySplitAux` for the single-character separator used by the chunker). -/
def splitLines : List Char → List (List Char)
  | [] => [[]]
  | c :: cs =>
    if c = '\n' then [] :: splitLines cs
    else
      match splitLines cs with
      | l :: ls => (c :: l) :: ls
      | [] => [[c]]

/-- The accumulation loop of `send_safe_message`: flush the current chunk
when the next line would overflow it, then append the line plus a newline. -/
def chunkLoop : List (List Char) → List Char → List (List Char)
  | [], current => if current.isEmpty then [] else [current]
  | line :: rest, current =>
    if MAX_LENGTH < current.length + line.length + 1 then
      current :: chunkLoop rest (line ++ ['\n'])
    else
      chunkLoop rest (current ++ line ++ ['\n'])

/-- `send_safe_message`: one chunk if the text fits, else the split loop. -/
def send_safe_message (text : List Char) : List (List Char) :=
  if text.length ≤ MAX_LENGTH then [text]
  else chunkLoop (splitLines text) []

theorem splitLines_ne_nil (cs : List Char) : splitLines cs ≠ [] := by
  induction cs with
  | nil => simp [splitLines]
  | cons c cs ih =>
    simp only [splitLines]
    split
    · simp
    · cases h : splitLines cs with
      | nil => simp
      | cons l ls => simp

/-- Rebuild a text from its lines (inverse of Python `split('\n')`). -/
def joinLines : List (List Char) → List Char
  | [] => []
  | [l] => l
  | l :: l' :: ls => l ++ '\n' :: joinLines (l' :: ls)

theorem joinLines_splitLines (cs : List Char) : joinLines (splitLines cs) = cs := by
  induction cs with
  | nil => rfl
  | cons c cs ih =>
    simp only [splitLines]
    split
    · rename_i hc
      subst hc
      cases h : splitLines cs with
      | nil => exact absurd h (splitLines_ne_nil cs)
      | cons l ls =>
        rw [h] at ih
        simp [joinLines, ih]
    · cases h : splitLines cs with
      | nil => exact absurd h (splitLines_ne_nil cs)
      | cons l ls =>
        rw [h] at ih
        cases ls with
        | nil => simpa [joinLines] using congrArg (c :: ·) ih
        | cons l' ls' => simpa [joinLines] using congrArg (c :: ·) ih

theorem chunkLoop_flatten (lines : List (List Char)) :
    ∀ current : List Char,
      (chunkLoop lines current).flatten
        = current ++ (lines.map (fun l => l ++ ['\n'])).flatten := by
  induction lines with
  | nil =>
    intro current
    simp only [chunkLoop]
    split
    · rename_i h
      simp [List.isEmpty_iff.mp h]
    · simp
  | cons line rest ih =>
    intro current
    simp only [chunkLoop]
    split <;> simp [ih, List.append_assoc]

theorem map_newline_flatten (lines : List (List Char)) (h : lines ≠ []) :
    (lines.map (fun l => l ++ ['\n'])).flatten = joinLines lines ++ ['\n'] := by
  induction lines with
  | nil => exact absurd rfl h
  | cons l ls ih =>
    cases ls with
    | nil => simp [joinLines]
    | cons l' ls' =>
      rw [List.map_cons, List.flatten_cons, ih (by simp)]
      simp only [joinLines]
      simp

/-- Concatenating the chunks of `send_safe_message`: exact for short texts,
one extra trailing newline once the split loop runs. -/
theorem send_safe_message_flatten (text : List Char) :
    (send_safe_message text).flatten
      = if text.length ≤ MAX_LENGTH then text else text ++ ['\n'] := by
  unfold send_safe_message
  split
  · simp
  · rw [chunkLoop_flatten, map_newline_flatten _ (splitLines_ne_nil text),
      joinLines_splitLines]
    simp

/-- Counterexample to C3: for the single-line text of length `MAX + 1`
(4001 characters), concatenating the produced chunks does not reproduce the
original text — the split loop appends a trailing newline. -/
theorem c3_roundtrip_fails_at_max_plus_one :
    (send_safe_message (List.replicate 4001 'a')).flatten
      ≠ List.replicate 4001 'a' := by
  rw [send_safe_message_flatten,
    if_neg (by rw [List.length_replicate]; decide)]
  intro h
  have := congrArg List.length h
  rw [List.length_append, List.length_replicate, List.length_singleton] at this
  omega

/-- Claim C3 (amended): concatenating all chunks produced by
`send_safe_message` reproduces the original text exactly when the text has
at most `MAX` (4000) characters; for any longer text — including length
`MAX + 1` and a single line longer than `MAX` — it reproduces the original
text followed by exactly one extra trailing newline, line breaks otherwise
preserved. -/
theorem c3_chunk_roundtrip_amended (text : List Char) :
    (send_safe_message text).flatten
      = if text.length ≤ MAX_LENGTH then text else text ++ ['\n'] :=
  send_safe_message_flatten text

theorem splitLines_no_newline (cs : List Char) (h : '\n' ∉ cs) :
    splitLines cs = [cs] := by
  induction cs with
  | nil => rfl
  | cons c cs ih =>
    simp only [splitLines]
    rw [if_neg (by rintro rfl; exact h (List.mem_cons_self _ _)),
      ih (fun hm => h (List.mem_cons_of_mem _ hm))]

/-- Claim C10: for any text longer than `MAX` whose first line alone is
longer than `MAX - 1` characters, `send_safe_message` attempts to send an
empty-string chunk before the chunk holding the oversized line, because the
splitter flushes the current chunk even when it is empty. -/
theorem c10_empty_chunk_flush (text l0 : List Char) (ls : List (List Char))
    (hsplit : splitLines text = l0 :: ls)
    (hlen : MAX_LENGTH < text.length)
    (hline : MAX_LENGTH - 1 < l0.length) :
    ∃ cs, send_safe_message text = [] :: (l0 ++ ['\n']) :: cs := by
  unfold send_safe_message
  rw [if_neg (by omega), hsplit]
  simp only [chunkLoop]
  rw [if_pos (by simp [MAX_LENGTH] at hline ⊢; omega)]
  cases ls with
  | nil =>
    refine ⟨[], ?_⟩
    simp [chunkLoop]
  | cons l1 ls' =>
    refine ⟨chunkLoop ls' (l1 ++ ['\n']), ?_⟩
    simp only [chunkLoop]
    rw [if_pos (by simp [MAX_LENGTH] at hline ⊢; omega)]

/-- Witness for C10: a single 4001-character line produces an empty first
chunk followed by the oversized line. -/
theorem c10_empty_chunk_flush_witness :
    ∃ cs, send_safe_message (List.replicate 4001 'a')
        = [] :: (List.replicate 4001 'a' ++ ['\n']) :: cs :=
  c10_empty_chunk_flush (List.replicate 4001 'a') (List.replicate 4001 'a') []
    (splitLines_no_newline _ (by
      rw [List.mem_replicate]
      rintro ⟨-, h⟩
      exact absurd h (by decide)))
    (by rw [List.length_replicate]; decide)
    (by rw [List.length_replicate]; decide)

/-!
## Credential rotation and the safe generator (orbit.py lines 55-133,
dashboard.py lines 103-119)

`resolver i` stands for the result of `get_valid_model()` while credential
`i` is the configured key (model discovery under that key); `backend i m`
stands for `model.generate_content(prompt)` with credential `i` active and
resolved model `m`, yielding either the response text or the error message
string that the source classifies by substring checks.
-/

/-- The process-local state of orbit.py: `CURRENT_KEY_INDEX` and `model`. -/
structure GenState where
  key_index : Nat
  model : String
deriving DecidableEq

/-- orbit.py `rotate_key`: advance the cursor modulo the pool size, then
re-resolve the model under the new credential; report whether rotation was
possible. -/
def rotate_key (keys : List String) (resolver : Nat → String) (s : GenState) :
    Bool × GenState :=
  if 1 < keys.length then
    (true, ⟨(s.key_index + 1) % keys.length,
      resolver ((s.key_index + 1) % keys.length)⟩)
  else
    (false, s)

/-- The retry loop of `generate_content_safe`, one recursion step per loop
attempt, also counting backend calls.  Error classification follows the
source: `"404" in msg` re-resolves under the same key, `"429" or "403"`
rotates (continuing either way), anything else returns `None` at once. -/
def generate_content_safe_aux (keys : List String) (resolver : Nat → String)
    (backend : Nat → String → Except String String) :
    Nat → GenState → Nat → Option String × GenState × Nat
  | 0, s, calls => (none, s, calls)
  | fuel + 1, s, calls =>
    match backend s.key_index s.model with
    | Except.ok t => (some t, s, calls + 1)
    | Except.error err_msg =>
      if substr "404" err_msg then
        generate_content_safe_aux keys resolver backend fuel
          ⟨s.key_index, resolver s.key_index⟩ (calls + 1)
      else if substr "429" err_msg || substr "403" err_msg then
        generate_content_safe_aux keys resolver backend fuel
          (rotate_key keys resolver s).2 (calls + 1)
      else
        (none, s, calls + 1)

/-- `max_retries = 3` from `generate_content_safe`. -/
def max_retries : Nat := 3

/-- `generate_content_safe`: the bounded retry loop, returning the optional
response text, the final process state and the number of backend calls. -/
def generate_content_safe (keys : List String) (resolver : Nat → String)
    (backend : Nat → String → Except String String) (s : GenState) :
    Option String × GenState × Nat :=
  generate_content_safe_aux keys resolver backend max_retries s 0

/-- Counterexample to C4: against a backend that always fails with an
error classified as Other (no "404", "429" or "403" in the message),
`generate_content_safe` does not retry at all — the backend is called
exactly once, so the claimed pause-and-retry behaviour never happens. -/
theorem c4_other_error_no_retry :
    (generate_content_safe ["k1", "k2"] (fun _ => "gemini-1.5-flash")
        (fun _ _ => Except.error "500 Internal Server Error")
        ⟨0, "gemini-1.5-flash"⟩).2.2 = 1 ∧
    ¬ 2 ≤ (generate_content_safe ["k1", "k2"] (fun _ => "gemini-1.5-flash")
        (fun _ _ => Except.error "500 Internal Server Error")
        ⟨0, "gemini-1.5-flash"⟩).2.2 := by
  decide

/-- Claim C4 (amended): when a generation attempt fails with an error
classified as Other (neither not-found nor quota/auth), `generate_content_safe`
logs and yields absence (None) immediately, with no rotation, re-resolution
or retry: against a backend that always fails with Other the backend is
called exactly once (within the bound of 3) and the process state is left
unchanged. -/
theorem c4_other_error_single_call (keys : List String)
    (resolver : Nat → String) (e : String) (s : GenState)
    (h404 : substr "404" e = false) (h429 : substr "429" e = false)
    (h403 : substr "403" e = false) :
    generate_content_safe keys resolver (fun _ _ => Except.error e) s
      = (none, s, 1) := by
  simp [generate_content_safe, max_retries, generate_content_safe_aux,
    h404, h429, h403]

/-- Witness for C4 (amended) at a concrete always-Other backend. -/
theorem c4_other_error_single_call_witness :
    generate_content_safe ["k1", "k2"] (fun _ => "gemini-1.5-flash")
        (fun _ _ => Except.error "503 Service Unavailable")
        ⟨0, "gemini-1.5-flash"⟩
      = (none, ⟨0, "gemini-1.5-flash"⟩, 1) :=
  c4_other_error_single_call ["k1", "k2"] (fun _ => "gemini-1.5-flash")
    "503 Service Unavailable" ⟨0, "gemini-1.5-flash"⟩
    (by decide) (by decide) (by decide)

/-- Claim C6: with pool `[k1, k2]` and the cursor on k1, if generation
under k1 fails with a quota/auth error (a "429" or "403" message, not a
"404" one) and generation under k2 succeeds, then `generate_content_safe`
returns k2's output after two backend calls and the active credential index
ends at k2's position, with the model re-resolved under k2. -/
theorem c6_quota_rotation_scenario (e out : String) (resolver : Nat → String)
    (h404 : substr "404" e = false)
    (hqa : substr "429" e = true ∨ substr "403" e = true) :
    generate_content_safe ["k1", "k2"] resolver
        (fun i _ => if i = 0 then Except.error e else Except.ok out)
        ⟨0, resolver 0⟩
      = (some out, ⟨1, resolver 1⟩, 2) := by
  have hor : (substr "429" e || substr "403" e) = true := by
    rcases hqa with h | h <;> simp [h]
  simp [generate_content_safe, max_retries, generate_content_safe_aux,
    h404, hor, rotate_key]

/-- Witness for C6 at a concrete quota error and output. -/
theorem c6_quota_rotation_scenario_witness :
    generate_content_safe ["k1", "k2"] (fun _ => "gemini-1.5-flash")
        (fun i _ => if i = 0 then Except.error "429 quota exceeded"
                    else Except.ok "k2 output")
        ⟨0, "gemini-1.5-flash"⟩
      = (some "k2 output", ⟨1, "gemini-1.5-flash"⟩, 2) :=
  c6_quota_rotation_scenario "429 quota exceeded" "k2 output"
    (fun _ => "gemini-1.5-flash") (by decide) (Or.inl (by decide))

/-!
## Model resolution (orbit.py `get_valid_model` lines 79-104,
dashboard.py `resolve_model_name` lines 70-92) and the dashboard rotation
(dashboard.py `rotate_key` lines 103-119)

Endpoint discovery (`genai.list_models()`) is the external input: either a
list of model descriptors or a failure (the `except` path).
-/

/-- A descriptor from `genai.list_models()`. -/
structure ModelInfo where
  name : String
  supported_generation_methods : List String

/-- The `valid_models` list: names of descriptors supporting
`generateContent`, in discovery order. -/
def valid_models (models : List ModelInfo) : List String :=
  (models.filter
    (fun m => m.supported_generation_methods.contains "generateContent")).map
    (fun m => m.name)

/-- Priority-1 test: `'gemini-1.5-flash' in m and 'latest' not in m and
'exp' not in m`. -/
def tier1_match (m : String) : Bool :=
  substr "gemini-1.5-flash" m && !(substr "latest" m) && !(substr "exp" m)

/-- Priority-2 test: `'flash' in m and 'gemini-2' not in m and
'exp' not in m`. -/
def tier2_match (m : String) : Bool :=
  substr "flash" m && !(substr "gemini-2" m) && !(substr "exp" m)

/-- `m.replace("models/", "")`. -/
def strip_models (m : String) : String := pyReplaceS m "models/" ""

/-- orbit.py `get_valid_model`, returning the resolved endpoint identifier:
first priority-1 match, else first priority-2 match, else the first
generation-capable endpoint, else (no candidates, or discovery failed) the
hardcoded `'gemini-1.5-flash'`. -/
def get_valid_model (discovery : Except Unit (List ModelInfo)) : String :=
  match discovery with
  | Except.ok models =>
    let valid := valid_models models
    match valid.find? tier1_match with
    | some m => strip_models m
    | none =>
      match valid.find? tier2_match with
      | some m => strip_models m
      | none =>
        match valid with
        | m :: _ => strip_models m
        | [] => "gemini-1.5-flash"
  | Except.error _ => "gemini-1.5-flash"

/-- dashboard.py `resolve_model_name`: the same priority scan (it returns
the name directly instead of instantiating a model object). -/
def resolve_model_name (discovery : Except Unit (List ModelInfo)) : String :=
  match discovery with
  | Except.ok models =>
    let valid := valid_models models
    match valid.find? tier1_match with
    | some m => strip_models m
    | none =>
      match valid.find? tier2_match with
      | some m => strip_models m
      | none =>
        match valid with
        | m :: _ => strip_models m
        | [] => "gemini-1.5-flash"
  | Except.error _ => "gemini-1.5-flash"

/-- Claim C7: model resolution never aborts: on failed discovery both
variants return the hardcoded default, and on successful discovery they
return a priority-1 match if one exists, else a priority-2 match if one
exists, else the first generation-capable endpoint in discovery order
(always with the `models/` tag stripped). -/
theorem c7_model_resolution_priority (d : Except Unit (List ModelInfo)) :
    resolve_model_name d = get_valid_model d ∧
    (d = Except.error () → get_valid_model d = "gemini-1.5-flash") ∧
    ∀ models, d = Except.ok models →
      ((∃ m ∈ valid_models models, tier1_match m = true) →
        ∃ m ∈ valid_models models, tier1_match m = true ∧
          get_valid_model d = strip_models m) ∧
      ((∀ m ∈ valid_models models, tier1_match m = false) →
       (∃ m ∈ valid_models models, tier2_match m = true) →
        ∃ m ∈ valid_models models, tier2_match m = true ∧
          get_valid_model d = strip_models m) ∧
      ((∀ m ∈ valid_models models, tier1_match m = false) →
       (∀ m ∈ valid_models models, tier2_match m = false) →
       ∀ m rest, valid_models models = m :: rest →
        get_valid_model d = strip_models m) ∧
      (valid_models models = [] → get_valid_model d = "gemini-1.5-flash") := by
  refine ⟨?_, ?_, ?_⟩
  · cases d <;> rfl
  · rintro rfl
    rfl
  · rintro models rfl
    refine ⟨?_, ?_, ?_, ?_⟩
    · rintro ⟨m, hm, h1⟩
      have hsome : (List.find? tier1_match (valid_models models)).isSome := by
        rw [List.find?_isSome]
        exact ⟨m, hm, h1⟩
      cases hfind : List.find? tier1_match (valid_models models) with
      | none => rw [hfind] at hsome; simp at hsome
      | some m0 =>
        refine ⟨m0, List.mem_of_find?_eq_some hfind, List.find?_some hfind, ?_⟩
        simp [get_valid_model, hfind]
    · intro hno1
      rintro ⟨m, hm, h2⟩
      have hnone1 : List.find? tier1_match (valid_models models) = none := by
        rw [List.find?_eq_none]
        intro x hx
        simp [hno1 x hx]
      have hsome : (List.find? tier2_match (valid_models models)).isSome := by
        rw [List.find?_isSome]
        exact ⟨m, hm, h2⟩
      cases hfind : List.find? tier2_match (valid_models models) with
      | none => rw [hfind] at hsome; simp at hsome
      | some m0 =>
        refine ⟨m0, List.mem_of_find?_eq_some hfind, List.find?_some hfind, ?_⟩
        simp [get_valid_model, hnone1, hfind]
    · intro hno1 hno2 m rest hvalid
      have hnone1 : List.find? tier1_match (valid_models models) = none := by
        rw [List.find?_eq_none]
        intro x hx
        simp [hno1 x hx]
      have hnone2 : List.find? tier2_match (valid_models models) = none := by
        rw [List.find?_eq_none]
        intro x hx
        simp [hno2 x hx]
      rw [hvalid] at hnone1 hnone2
      simp [get_valid_model, hnone1, hnone2, hvalid]
    · intro hvalid
      simp [get_valid_model, hvalid]

/-- Witness for C7: a discovery exposing a single stable 1.5-flash endpoint
resolves to it. -/
theorem c7_model_resolution_priority_witness :
    ∃ m ∈ valid_models [⟨"models/gemini-1.5-flash-002", ["generateContent"]⟩],
      tier1_match m = true ∧
      get_valid_model
          (Except.ok [⟨"models/gemini-1.5-flash-002", ["generateContent"]⟩])
        = strip_models m :=
  ((c7_model_resolution_priority
      (Except.ok [⟨"models/gemini-1.5-flash-002", ["generateContent"]⟩])).2.2
    _ rfl).1 ⟨"models/gemini-1.5-flash-002", by decide, by decide⟩

/-- The dashboard session state: `st.session_state.key_index` and the
cached `st.session_state.model_name`. -/
structure DashState where
  key_index : Nat
  model_name : String
deriving DecidableEq

/-- dashboard.py `rotate_key`: switches the key index and re-instantiates
the model object from the cached `model_name` without re-scanning. -/
def dash_rotate_key (keys : List String) (s : DashState) : Bool × DashState :=
  if keys.length ≤ 1 then (false, s)
  else (true, ⟨(s.key_index + 1) % keys.length, s.model_name⟩)

/-- Counterexample to C5: with two credentials whose discoveries resolve to
different names ("models/alpha" under k1, "models/beta" under k2), the
dashboard's `rotate_key` rotates successfully but keeps the model name
resolved under the old credential instead of re-resolving it. -/
theorem c5_dashboard_rotate_keeps_model_name :
    (dash_rotate_key ["k1", "k2"]
        ⟨0, resolve_model_name
              (Except.ok [⟨"models/alpha", ["generateContent"]⟩])⟩).1 = true ∧
    (dash_rotate_key ["k1", "k2"]
        ⟨0, resolve_model_name
              (Except.ok [⟨"models/alpha", ["generateContent"]⟩])⟩).2.model_name
      ≠ resolve_model_name
          (Except.ok [⟨"models/beta", ["generateContent"]⟩]) := by
  decide

/-- Claim C5 (amended): after every successful rotation, orbit.py's
`rotate_key` re-resolves the model against the newly active credential, but
dashboard.py's `rotate_key` only re-instantiates the model under the new
credential and always keeps the previously cached model name, performing no
re-resolution. -/
theorem c5_rotation_reresolution_amended :
    (∀ (keys : List String) (resolver : Nat → String) (s : GenState),
      ((rotate_key keys resolver s).2).model
        = if 1 < keys.length then resolver ((s.key_index + 1) % keys.length)
          else s.model) ∧
    (∀ (keys : List String) (s : DashState),
      ((dash_rotate_key keys s).2).model_name = s.model_name) := by
  constructor
  · intro keys resolver s
    unfold rotate_key
    split <;> simp_all
  · intro keys s
    unfold dash_rotate_key
    split <;> rfl

/-!
## Quiz batch delivery (orbit.py, `send_chaos`, lines 258-293)

The embedding starts from the parsed JSON list `data`.  A list entry is
`some q` when the object is well formed (all fields present with usable
types) and `none` when it is malformed — for a malformed entry the argument
evaluation of `bot.send_poll` raises, the per-destination handler catches
it, and no call reaches the delivery backend.  The trace records, in order,
every poll call that reaches the backend and the `time.sleep(2)` executed
after each list entry.
-/

/-- A well-formed parsed quiz object (`question`,`options`,`correct_id`,
`explanation`). -/
structure QuizQuestion where
  question : String
  options : List String
  correct_id : Int
  explanation : String
deriving DecidableEq

/-- The arguments of one `bot.send_poll` call. -/
structure PollMsg where
  chat_id : String
  question : String
  options : List String
  correct_option_id : Int
  explanation : String
deriving DecidableEq

/-- The `send_poll` arguments built for question `q` at position `i` of a
batch of `n`, sent to `chat`: `[{i+1}/{n}] {question[:290]}`, options
truncated to 97 characters, the raw `correct_id`, explanation truncated to
190 characters. -/
def poll_of (n i : Nat) (chat : String) (q : QuizQuestion) : PollMsg :=
  ⟨chat,
   "[" ++ toString (i + 1) ++ "/" ++ toString n ++ "] " ++ pyTake q.question 290,
   q.options.map (fun o => pyTake o 97),
   q.correct_id,
   pyTake q.explanation 190⟩

inductive QuizEvent where
  | poll (p : PollMsg)
  | pause (secs : Nat)
deriving DecidableEq

/-- `for i, q in enumerate(data)`: for each entry, one `send_poll` attempt
per non-placeholder destination (skipped entirely when the entry is
malformed, since argument evaluation raises first), then `time.sleep(2)`. -/
def quiz_loop (targets : List String) (n : Nat) :
    Nat → List (Option QuizQuestion) → List QuizEvent
  | _, [] => []
  | i, e :: rest =>
    (targets.filterMap (fun chat =>
      if substr "REPLACE" chat then none
      else
        match e with
        | some q => some (QuizEvent.poll (poll_of n i chat q))
        | none => none))
      ++ QuizEvent.pause 2 :: quiz_loop targets n (i + 1) rest

/-- The full event trace of the quiz branch on parsed list `data`. -/
def quiz_poll_trace (targets : List String)
    (data : List (Option QuizQuestion)) : List QuizEvent :=
  quiz_loop targets data.length 0 data

def event_poll : QuizEvent → Option PollMsg
  | QuizEvent.poll p => some p
  | QuizEvent.pause _ => none

/-- All poll calls of a trace, in order. -/
def pollsOf (trace : List QuizEvent) : List PollMsg :=
  trace.filterMap event_poll

/-- The poll calls of a trace aimed at one destination, in order. -/
def pollsAt (chat : String) (trace : List QuizEvent) : List PollMsg :=
  (pollsOf trace).filter (fun p => p.chat_id == chat)

def is_pause (ev : QuizEvent) : Bool :=
  match ev with
  | QuizEvent.pause _ => true
  | QuizEvent.poll _ => false

/-- `TARGET_IDS` from orbit.py. -/
def TARGET_IDS : List String := ["6882899041", "-1003540692903"]

/-- The polls accepted by the delivery backend (a `send_poll` call either
succeeds or raises; a raise is caught per destination and the loop goes
on), i.e. the polls actually delivered under acceptance policy `accept`. -/
def delivered (accept : PollMsg → Bool) (targets : List String)
    (data : List (Option QuizQuestion)) : List PollMsg :=
  (pollsOf (quiz_poll_trace targets data)).filter accept

theorem pollsAt_append (chat : String) (a b : List QuizEvent) :
    pollsAt chat (a ++ b) = pollsAt chat a ++ pollsAt chat b := by
  simp [pollsAt, pollsOf, List.filterMap_append, List.filter_append]

theorem pollsAt_pause (chat : String) (s : Nat) (l : List QuizEvent) :
    pollsAt chat (QuizEvent.pause s :: l) = pollsAt chat l := by
  simp [pollsAt, pollsOf, List.filterMap_cons, event_poll]


theorem pollsAt_poll_cons (chat : String) (p : PollMsg) (l : List QuizEvent) :
    pollsAt chat (QuizEvent.poll p :: l)
      = if p.chat_id == chat then p :: pollsAt chat l else pollsAt chat l := by
  simp [pollsAt, pollsOf, List.filterMap_cons, event_poll, List.filter_cons]

theorem pollsAt_block (chat : String) (h1 : substr "REPLACE" chat = false)
    (targets : List String) (n i : Nat) (e : Option QuizQuestion) :
    pollsAt chat (targets.filterMap (fun t =>
        if substr "REPLACE" t then none
        else
          match e with
          | some q => some (QuizEvent.poll (poll_of n i t q))
          | none => none))
      = match e with
        | some q =>
          List.replicate (List.count chat targets) (poll_of n i chat q)
        | none => [] := by
  cases e with
  | none =>
    simp only [ite_self]
    induction targets with
    | nil => simp [pollsAt, pollsOf]
    | cons t ts ih => simpa [List.filterMap_cons] using ih
  | some q =>
    induction targets with
    | nil => simp [pollsAt, pollsOf]
    | cons t ts ih =>
      by_cases hpt : substr "REPLACE" t = true
      · have htc : (t == chat) = false := by
          rw [beq_eq_false_iff_ne]
          rintro rfl
          rw [hpt] at h1
          cases h1
        simp [List.filterMap_cons, hpt, List.count_cons, htc, ih]
      · have hpf : substr "REPLACE" t = false := by simpa using hpt
        have hcid : ∀ t' : String, (poll_of n i t' q).chat_id = t' :=
          fun _ => rfl
        by_cases htc : t = chat
        · subst htc
          simp [List.filterMap_cons, hpf, pollsAt_poll_cons, List.count_cons,
            List.replicate_succ, hcid, ih]
        · have hbe : (t == chat) = false := beq_eq_false_iff_ne.mpr htc
          simp [List.filterMap_cons, hpf, pollsAt_poll_cons, hbe,
            List.count_cons, hcid, htc, ih]

theorem pollsAt_quiz_loop (targets : List String) (chat : String)
    (h1 : substr "REPLACE" chat = false)
    (h2 : List.count chat targets = 1) (n : Nat) :
    ∀ (data : List (Option QuizQuestion)) (i : Nat),
      pollsAt chat (quiz_loop targets n i data)
        = (List.enumFrom i data).filterMap
            (fun je => je.2.map (poll_of n je.1 chat)) := by
  intro data
  induction data with
  | nil =>
    intro i
    simp [quiz_loop, pollsAt, pollsOf]
  | cons e rest ih =>
    intro i
    simp only [quiz_loop]
    rw [pollsAt_append, pollsAt_pause, pollsAt_block chat h1 targets n i e, h2,
      ih (i + 1), List.enumFrom_cons]
    cases e with
    | none => simp
    | some q => simp [List.replicate_one, List.filterMap_cons]

theorem countP_pause_quiz_loop (targets : List String) (n : Nat) :
    ∀ (data : List (Option QuizQuestion)) (i : Nat),
      (quiz_loop targets n i data).countP is_pause = data.length := by
  intro data
  induction data with
  | nil => intro i; simp [quiz_loop]
  | cons e rest ih =>
    intro i
    simp only [quiz_loop]
    rw [List.countP_append, List.countP_cons_of_pos _ _ (by rfl), ih (i + 1)]
    have hblock : (targets.filterMap (fun chat =>
        if substr "REPLACE" chat then none
        else
          match e with
          | some q => some (QuizEvent.poll (poll_of n i chat q))
          | none => none)).countP is_pause = 0 := by
      rw [List.countP_eq_zero]
      intro ev hev
      rcases List.mem_filterMap.mp hev with ⟨t, _, hf⟩
      by_cases hpt : substr "REPLACE" t = true
      · rw [if_pos hpt] at hf
        cases hf
      · rw [if_neg hpt] at hf
        cases e with
        | some q =>
          cases hf
          simp [is_pause]
        | none => cases hf
    rw [hblock]
    simp [List.length_cons]

theorem mem_enumFrom_of_get? (data : List (Option QuizQuestion)) (i : Nat)
    (e : Option QuizQuestion) (h : data.get? i = some e) :
    (i, e) ∈ List.enumFrom 0 data := by
  have := List.get?_enumFrom 0 data i
  rw [h] at this
  simpa using List.get?_mem this

/-- Claim C9: on a parsed batch of exactly 3 well-formed questions, each
non-placeholder destination (appearing once in the target list) receives
exactly 3 poll calls, in the original list order; in general the polls a
destination receives are exactly the well-formed entries in order (so a
malformed entry is dropped individually without disturbing the rest), and
one `time.sleep(2)` pacing pause is executed per list entry. -/
theorem c9_quiz_batch_delivery (targets : List String) (chat : String)
    (q1 q2 q3 : QuizQuestion)
    (h1 : substr "REPLACE" chat = false)
    (h2 : List.count chat targets = 1) :
    pollsAt chat (quiz_poll_trace targets [some q1, some q2, some q3])
      = [poll_of 3 0 chat q1, poll_of 3 1 chat q2, poll_of 3 2 chat q3] ∧
    (∀ data, pollsAt chat (quiz_poll_trace targets data)
      = data.enum.filterMap (fun je => je.2.map (poll_of data.length je.1 chat))) ∧
    (∀ data, (quiz_poll_trace targets data).countP is_pause = data.length) := by
  refine ⟨?_, ?_, ?_⟩
  · rw [show quiz_poll_trace targets [some q1, some q2, some q3]
        = quiz_loop targets 3 0 [some q1, some q2, some q3] from rfl,
      pollsAt_quiz_loop targets chat h1 h2 3 _ 0]
    rfl
  · intro data
    rw [show quiz_poll_trace targets data
        = quiz_loop targets data.length 0 data from rfl,
      pollsAt_quiz_loop targets chat h1 h2 data.length data 0]
    rfl
  · intro data
    exact countP_pause_quiz_loop targets data.length data 0

/-- Witness for C9 at the code's own `TARGET_IDS` and a concrete batch. -/
theorem c9_quiz_batch_delivery_witness :
    pollsAt "6882899041" (quiz_poll_trace TARGET_IDS
        [some ⟨"Q1", ["A", "B", "C", "D"], 0, "E1"⟩,
         some ⟨"Q2", ["A", "B", "C", "D"], 1, "E2"⟩,
         some ⟨"Q3", ["A", "B", "C", "D"], 2, "E3"⟩])
      = [poll_of 3 0 "6882899041" ⟨"Q1", ["A", "B", "C", "D"], 0, "E1"⟩,
         poll_of 3 1 "6882899041" ⟨"Q2", ["A", "B", "C", "D"], 1, "E2"⟩,
         poll_of 3 2 "6882899041" ⟨"Q3", ["A", "B", "C", "D"], 2, "E3"⟩] :=
  (c9_quiz_batch_delivery TARGET_IDS "6882899041" _ _ _
    (by decide) (by decide)).1

/-- Counterexample to C8: the engine performs no validation of
`correct_id`.  Under a delivery backend that accepts every call, a question
whose `correct_id` (7) does not index its 4-entry options list is still
delivered to the destination rather than dropped. -/
theorem c8_invalid_index_delivered :
    poll_of 1 0 "6882899041" ⟨"Q?", ["A", "B", "C", "D"], 7, "E"⟩
        ∈ delivered (fun _ => true) ["6882899041"]
            [some ⟨"Q?", ["A", "B", "C", "D"], 7, "E"⟩] ∧
    ¬ (poll_of 1 0 "6882899041" ⟨"Q?", ["A", "B", "C", "D"], 7, "E"⟩).correct_option_id
        < ((poll_of 1 0 "6882899041"
            ⟨"Q?", ["A", "B", "C", "D"], 7, "E"⟩).options.length : Int) := by
  decide

/-- Claim C8 (amended): the engine never checks `correct_id` against the
options list: every well-formed question, valid index or not, gets a poll
call per non-placeholder destination; dropping an invalid question happens
only if the delivery backend rejects the call, in which case (backend
accepting only index-valid polls) every delivered poll does satisfy
`correctOptionIndex ∈ [0, number of options)`. -/
theorem c8_no_engine_validation (targets : List String) (chat : String)
    (data : List (Option QuizQuestion)) (i : Nat) (q : QuizQuestion)
    (accept : PollMsg → Bool)
    (h1 : substr "REPLACE" chat = false)
    (h2 : List.count chat targets = 1)
    (h3 : data.get? i = some (some q)) :
    poll_of data.length i chat q ∈ pollsOf (quiz_poll_trace targets data) ∧
    ((∀ p, accept p = true →
        0 ≤ p.correct_option_id ∧ p.correct_option_id < (p.options.length : Int)) →
      ∀ p ∈ delivered accept targets data,
        0 ≤ p.correct_option_id ∧ p.correct_option_id < (p.options.length : Int)) := by
  constructor
  · have hat : poll_of data.length i chat q
        ∈ pollsAt chat (quiz_poll_trace targets data) := by
      rw [show quiz_poll_trace targets data
          = quiz_loop targets data.length 0 data from rfl,
        pollsAt_quiz_loop targets chat h1 h2 data.length data 0]
      exact List.mem_filterMap.mpr
        ⟨(i, some q), mem_enumFrom_of_get? data i (some q) h3, rfl⟩
    exact List.mem_of_mem_filter hat
  · intro hacc p hp
    exact hacc p (List.mem_filter.mp hp).2

/-- Witness for C8 (amended) at a concrete destination, batch and
index-validating backend. -/
theorem c8_no_engine_validation_witness :
    poll_of 1 0 "6882899041" ⟨"Q!", ["A", "B", "C", "D"], 2, "E"⟩
        ∈ pollsOf (quiz_poll_trace ["6882899041"]
            [some ⟨"Q!", ["A", "B", "C", "D"], 2, "E"⟩]) ∧
    ((∀ p, (fun p : PollMsg =>
          decide (0 ≤ p.correct_option_id) &&
          decide (p.correct_option_id < (p.options.length : Int))) p = true →
        0 ≤ p.correct_option_id ∧ p.correct_option_id < (p.options.length : Int)) →
      ∀ p ∈ delivered (fun p : PollMsg =>
          decide (0 ≤ p.correct_option_id) &&
          decide (p.correct_option_id < (p.options.length : Int)))
          ["6882899041"] [some ⟨"Q!", ["A", "B", "C", "D"], 2, "E"⟩],
        0 ≤ p.correct_option_id ∧ p.correct_option_id < (p.options.length : Int)) :=
  c8_no_engine_validation ["6882899041"] "6882899041"
    [some ⟨"Q!", ["A", "B", "C", "D"], 2, "E"⟩] 0
    ⟨"Q!", ["A", "B", "C", "D"], 2, "E"⟩ _
    (by decide) (by decide) rfl

/-!
## Mystery case / god mode (orbit.py, `send_chaos`, lines 295-362)

`response_text` is `some text` when the generator produced a response with
non-empty text, `none` otherwise; `case_num` stands for the drawn
`random.randint(1000, 9999)`.  The trace lists the broadcasts and blocking
sleeps of the branch, in execution order.  The branch keeps no other state:
there is no durable store anywhere in the source, so nothing survives to a
later invocation.
-/

inductive ChaosEvent where
  | broadcast (text : String)
  | sleep (secs : Nat)
deriving DecidableEq

/-- The `scrub` helper of the god-mode branch: strip markdown markers,
rewrite illegal HTML tags, then `strip()`. -/
def scrub (t : String) : String :=
  let t := pyReplaceS t "## " ""
  let t := pyReplaceS t "### " ""
  let t := pyReplaceS t "**" ""
  let t := pyReplaceS t "__" ""
  let t := pyReplaceS t "<p>" ""
  let t := pyReplaceS t "</p>" "\n\n"
  let t := pyReplaceS t "<ul>" ""
  let t := pyReplaceS t "</ul>" ""
  let t := pyReplaceS t "<li>" "• "
  let t := pyReplaceS t "</li>" "\n"
  let t := pyReplaceS t "<h1>" "<b>"
  let t := pyReplaceS t "</h1>" "</b>\n"
  let t := pyReplaceS t "<h2>" "<b>"
  let t := pyReplaceS t "</h2>" "</b>\n"
  pyStrip t

def god_mode_header : String :=
  "👑 <b>GOD MODE ACTIVATED: THE HOUSE M.D. PROTOCOL</b> 👑\n\n<i>Searching global medical archives for anomalies...</i>"

/-- The event trace of the god-mode branch: header broadcast; then, given
response text, split on `"||REVEAL||"`, broadcast the scrubbed part 1 as
the case file, broadcast the suspense line, `time.sleep(10)`, and broadcast
the scrubbed part 2 in the same run when the delimiter was present (else a
data-corruption warning); without usable response text, a failure notice. -/
def mystery_case_trace (case_num : Nat) (response_text : Option String) :
    List ChaosEvent :=
  ChaosEvent.broadcast god_mode_header ::
    match response_text with
    | some text =>
      let parts := pySplitS text "||REVEAL||"
      let part1_clean := scrub (parts.getD 0 "")
      ChaosEvent.broadcast ("📋 <b>CASE FILE #" ++ toString case_num
          ++ ": THE UNEXPLAINED</b>\n\n" ++ part1_clean) ::
      ChaosEvent.broadcast
          "<i>⏳ Analyzing differentials... (You have 10 seconds to guess)</i>" ::
      ChaosEvent.sleep 10 ::
      (if 1 < parts.length then
        [ChaosEvent.broadcast ("🧬 <b>DIAGNOSIS REVEALED</b>\n\n"
            ++ scrub (parts.getD 1 ""))]
      else
        [ChaosEvent.broadcast
            "⚠️ <b>Data Corruption:</b> AI forgot the spoiler tag. Diagnosis is in the text above."])
    | none =>
      [ChaosEvent.broadcast
          "⚠️ <b>System Failure:</b> The case files are encrypted. (API Error)."]

/-- Counterexample to C1: on a run whose mystery-case response contains the
section delimiter, the second part IS delivered during that very run (after
the 10-second suspense sleep), contradicting the claimed deferral; no
PendingReveal record exists anywhere in the source. -/
theorem c1_reveal_delivered_same_run :
    ChaosEvent.broadcast ("🧬 <b>DIAGNOSIS REVEALED</b>\n\n" ++ "ANSWER")
      ∈ mystery_case_trace 1234 (some "CASE||REVEAL||ANSWER") := by
  decide

/-- Claim C1 (amended): when a mystery-case response contains the section
delimiter, both parts are delivered during the same invocation: the case
file (part 1), a suspense broadcast, a blocking 10-second sleep, then the
diagnosis reveal (part 2).  No PendingReveal record is created, persisted,
read or cleared — the source has no durable state, so a following
invocation observes nothing from this run. -/
theorem c1_mystery_case_same_run_trace (case_num : Nat) (text p1 p2 : String)
    (h : pySplitS text "||REVEAL||" = [p1, p2]) :
    mystery_case_trace case_num (some text)
      = [ChaosEvent.broadcast god_mode_header,
         ChaosEvent.broadcast ("📋 <b>CASE FILE #" ++ toString case_num
            ++ ": THE UNEXPLAINED</b>\n\n" ++ scrub p1),
         ChaosEvent.broadcast
            "<i>⏳ Analyzing differentials... (You have 10 seconds to guess)</i>",
         ChaosEvent.sleep 10,
         ChaosEvent.broadcast ("🧬 <b>DIAGNOSIS REVEALED</b>\n\n" ++ scrub p2)] := by
  simp [mystery_case_trace, h]

/-- Witness for C1 (amended) at a concrete two-part response. -/
theorem c1_mystery_case_same_run_trace_witness :
    mystery_case_trace 1234 (some "CASE||REVEAL||ANSWER")
      = [ChaosEvent.broadcast god_mode_header,
         ChaosEvent.broadcast ("📋 <b>CASE FILE #" ++ toString 1234
            ++ ": THE UNEXPLAINED</b>\n\n" ++ scrub "CASE"),
         ChaosEvent.broadcast
            "<i>⏳ Analyzing differentials... (You have 10 seconds to guess)</i>",
         ChaosEvent.sleep 10,
         ChaosEvent.broadcast ("🧬 <b>DIAGNOSIS REVEALED</b>\n\n" ++ scrub "ANSWER")] :=
  c1_mystery_case_same_run_trace 1234 "CASE||REVEAL||ANSWER" "CASE" "ANSWER"
    (by decide)
